import Mathlib

/-!
Verification development for the Community Insider Bot (`src/index.ts`, second
revision of the file, which contains the navigation command handler, plus the
ingest endpoint it shares with the first revision).

The TypeScript source is shallowly embedded:
* JavaScript strings are Lean `String`s; the JS string methods used by the
  source (`trim`, `toLowerCase`, `startsWith`, `endsWith`, `slice`,
  `substring`, `includes`) are re-implemented structurally over the
  character list so that closed terms evaluate inside the kernel.
* `JSON.parse` and URL well-formedness (the zod url check) are
  platform built-ins, not repository code; they are passed as parameters
  (`parseJson : String → Option Json`, `isUrl : String → Bool`).
* The language-model provider is a black box, passed as a parameter
  (`provider : FeedbackItem → ProviderResponse`).
* The mutable globals `latestAnalysis`, `userToInsightIndex`,
  `userToSearchResults` form `ServerState`; JS `Map`s become association
  lists with `Map.set` / `Map.delete` / `Map.get` counterparts.
  (`userToConversationId` is proactive-messaging bookkeeping untouched by
  any navigation logic and is not part of the modelled state.)
-/

namespace CommunityInsights

/-- Lower-case one character, as JS `toLowerCase` does for ASCII (the
command tokens and keywords the source compares are ASCII). -/
def lowerChar (c : Char) : Char :=
  if 65 ≤ c.toNat ∧ c.toNat ≤ 90 then Char.ofNat (c.toNat + 32) else c

/-- Drop leading and trailing whitespace from a character list. -/
def trimChars (l : List Char) : List Char :=
  ((l.dropWhile Char.isWhitespace).reverse.dropWhile Char.isWhitespace).reverse

/-- JS `String.prototype.toLowerCase`. -/
def jsToLower (s : String) : String := ⟨s.data.map lowerChar⟩

/-- JS `String.prototype.trim`. -/
def jsTrim (s : String) : String := ⟨trimChars s.data⟩

/-- JS `String.prototype.startsWith`. -/
def jsStartsWith (s pre : String) : Bool := pre.data.isPrefixOf s.data

/-- JS `String.prototype.endsWith`. -/
def jsEndsWith (s suf : String) : Bool := suf.data.isSuffixOf s.data

/-- JS `s.slice(n)` / `s.substring(n)` for a non-negative index. -/
def jsDrop (s : String) (n : Nat) : String := ⟨s.data.drop n⟩

/-- JS `s.substring(0, s.length - n)` for a non-negative count. -/
def jsDropRight (s : String) (n : Nat) : String := ⟨s.data.take (s.data.length - n)⟩

/-- Substring occurrence test on character lists (JS `includes`). -/
def listContains (sub : List Char) : List Char → Bool
  | [] => sub.isEmpty
  | c :: t => sub.isPrefixOf (c :: t) || listContains sub t

/-- JS `String.prototype.includes`. -/
def jsIncludes (s sub : String) : Bool := listContains sub.data s.data

/-- JSON values, the possible results of `JSON.parse`.  Numbers are modelled
as integers (the feedback ids the source manipulates are integral). -/
inductive Json where
  | null
  | jbool (b : Bool)
  | num (n : Int)
  | str (s : String)
  | arr (elems : List Json)
  | obj (fields : List (String × Json))

/-- Property lookup on a parsed JSON value: `j[k]` is defined only when `j`
is an object holding the key. -/
def Json.lookupField : Json → String → Option Json
  | .obj fields, k => fields.lookup k
  | _, _ => none

/-- One feedback item, the shape `FeedbackItemSchema` accepts:
`{ id: number, text: string, source: string, url?: string (well-formed) }`. -/
structure FeedbackItem where
  id : Int
  text : String
  source : String
  url : Option String

/-- Outcome of one `prompt.send(item.text)` call: either a response whose
`content` field is the given string (`""` models absent/empty content, which
is falsy in the `if (analysisResult.content)` test of the source), or a thrown
error carrying `aiError.message`. -/
inductive ProviderResponse where
  | ok (content : String)
  | thrown (message : String)

/-- The `analysis` field the handler pushes: either the value returned by
`JSON.parse` verbatim, or one of the error objects the handler builds
`{ error, rawOutput? }`. -/
inductive AnalysisPayload where
  | parsed (value : Json)
  | failure (error : String) (rawOutput : Option String)

/-- One element of `analyzedResults`. -/
structure AnalysisResult where
  originalId : Int
  originalSource : String
  originalUrl : Option String
  analysis : AnalysisPayload

/-- The fenced-code stripping in `analyzeFeedbackToolHandler`: drop a leading
literal three-backticks-json marker (7 characters), drop a trailing
three-backticks marker (3 characters), then trim. -/
def stripFences (s : String) : String :=
  let s1 := if jsStartsWith s "```json" then jsDrop s "```json".length else s
  let s2 := if jsEndsWith s1 "```" then jsDropRight s1 3 else s1
  jsTrim s2

/-- The per-item body of the `for (const item of feedback)` loop in
`analyzeFeedbackToolHandler`.  Every branch pushes exactly one result that
copies `id`, `source`, `url` from the item. -/
def analyzeItem (parseJson : String → Option Json)
    (provider : FeedbackItem → ProviderResponse) (item : FeedbackItem) :
    AnalysisResult :=
  match provider item with
  | .thrown msg =>
      { originalId := item.id, originalSource := item.source, originalUrl := item.url,
        analysis := .failure (if msg = "" then "AI analysis failed" else msg) none }
  | .ok content =>
      if content = "" then
        { originalId := item.id, originalSource := item.source, originalUrl := item.url,
          analysis := .failure "No AI content" none }
      else
        match parseJson (stripFences content) with
        | some value =>
            { originalId := item.id, originalSource := item.source, originalUrl := item.url,
              analysis := .parsed value }
        | none =>
            { originalId := item.id, originalSource := item.source, originalUrl := item.url,
              analysis := .failure "AI output not valid JSON" (some content) }

/-- `analyzeFeedbackToolHandler`: one result per feedback item, in order. -/
def analyzeFeedback (parseJson : String → Option Json)
    (provider : FeedbackItem → ProviderResponse) (feedback : List FeedbackItem) :
    List AnalysisResult :=
  feedback.map (analyzeItem parseJson provider)

/-- `FeedbackItemSchema.safeParse` on one array element: `id` must be a
number, `text` a string (the zod string check accepts the empty string),
`source` a string, `url` absent or a well-formed URL string. -/
def validateFeedbackItem (isUrl : String → Bool) : Json → Option FeedbackItem
  | .obj fields =>
    (match fields.lookup "id", fields.lookup "text", fields.lookup "source",
           fields.lookup "url" with
     | some (.num i), some (.str t), some (.str s), none => some ⟨i, t, s, none⟩
     | some (.num i), some (.str t), some (.str s), some (.str u) =>
         if isUrl u then some ⟨i, t, s, some u⟩ else none
     | _, _, _, _ => none)
  | _ => none

/-- zod array validation: every element must validate, otherwise the whole
array is rejected. -/
def validateFeedbackList (isUrl : String → Bool) : List Json → Option (List FeedbackItem)
  | [] => some []
  | j :: rest =>
    match validateFeedbackItem isUrl j, validateFeedbackList isUrl rest with
    | some item, some items => some (item :: items)
    | _, _ => none

/-- `AnalyzeFeedbackInputSchema.safeParse(req.body)`: the body must be an
object whose `feedback` field is an array of valid feedback items. -/
def parseIngestInput (isUrl : String → Bool) : Json → Option (List FeedbackItem)
  | .obj fields =>
    (match fields.lookup "feedback" with
     | some (.arr items) => validateFeedbackList isUrl items
     | _ => none)
  | _ => none

/-- zod `z.array(z.string())`. -/
def isStringArray : Json → Bool
  | .arr elems => elems.all fun e => match e with | .str _ => true | _ => false
  | _ => false

/-- The fixed priority taxonomy `z.enum` over low, medium, high. -/
def isPriorityEnum (p : String) : Bool := p == "low" || p == "medium" || p == "high"

/-- `AnalysisObjectSchema`: `painPoints` an array of strings, `summary` a
string, `priority` one of the enum values (zod strips unknown keys). -/
def matchesAnalysisObject : Json → Bool
  | .obj fields =>
    (match fields.lookup "painPoints", fields.lookup "summary", fields.lookup "priority" with
     | some pp, some (.str _), some (.str p) => isStringArray pp && isPriorityEnum p
     | _, _, _ => false)
  | _ => false

/-- `AnalysisErrorSchema`: `error` a string (`rawOutput` is `z.any()`). -/
def matchesAnalysisError : Json → Bool
  | .obj fields =>
    (match fields.lookup "error" with
     | some (.str _) => true
     | _ => false)
  | _ => false

/-- Output-schema validity of the `analysis` union member.  The failure objects built by the handler always carry a string `error`, so they always validate. -/
def analysisOutputValid : AnalysisPayload → Bool
  | .failure _ _ => true
  | .parsed j => matchesAnalysisObject j || matchesAnalysisError j

/-- `AnalysisResultSchema` on one result (`originalId` and `originalSource`
are a number and a string by construction; `originalUrl` must be a
well-formed URL when present). -/
def resultOutputValid (isUrl : String → Bool) (r : AnalysisResult) : Bool :=
  (match r.originalUrl with | none => true | some u => isUrl u) &&
    analysisOutputValid r.analysis

/-- `AnalyzeFeedbackOutputSchema.safeParse` over `analyzedResults`. -/
def outputValid (isUrl : String → Bool) (rs : List AnalysisResult) : Bool :=
  rs.all (resultOutputValid isUrl)

/-- The runtime discrimination the bot applies everywhere: a result is
treated as a failure exactly when the JS `in` test finds an `error` key.  A verbatim
parsed object that happens to carry an `error` key is therefore classified
as a failure; a parsed non-object is classified as success-shaped (the JS
`in` operator would throw on primitives, outside the modelled domain). -/
def AnalysisPayload.hasErrorKey : AnalysisPayload → Bool
  | .failure _ _ => true
  | .parsed j => (j.lookupField "error").isSome

/-- The `priority` property of the stored analysis value. -/
def AnalysisPayload.priorityField : AnalysisPayload → Option Json
  | .failure _ _ => none
  | .parsed j => j.lookupField "priority"

/-- The `a.summary && a.summary.toLowerCase().includes(keyword)` disjunct of
the `/search_insights` filter (an absent or empty `summary` is falsy). -/
def summaryMatches (keyword : String) (j : Json) : Bool :=
  match j.lookupField "summary" with
  | some (.str s) => s != "" && jsIncludes (jsToLower s) keyword
  | _ => false

/-- The `a.painPoints && a.painPoints.some(p => ...)` disjunct of the
`/search_insights` filter. -/
def painPointsMatch (keyword : String) (j : Json) : Bool :=
  match j.lookupField "painPoints" with
  | some (.arr ps) =>
      ps.any fun p => match p with
        | .str s => jsIncludes (jsToLower s) keyword
        | _ => false
  | _ => false

/-- source-or-empty, a space, then url-or-empty, as the filter concatenates them. -/
def feedbackText (r : AnalysisResult) : String :=
  r.originalSource ++ " " ++ r.originalUrl.getD ""

/-- The `/search_insights` filter predicate: failure-classified results
(the `in` test finds an `error` key) are rejected outright; otherwise the keyword must occur
(case-insensitively) in the summary, a pain point, or source-plus-url. -/
def matchesKeyword (keyword : String) (r : AnalysisResult) : Bool :=
  match r.analysis with
  | .failure _ _ => false
  | .parsed j =>
    if (j.lookupField "error").isSome then false
    else
      summaryMatches keyword j || painPointsMatch keyword j ||
        jsIncludes (jsToLower (feedbackText r)) keyword

/-- Indices (into the batch, counting from `start`) of the results the
`/search_insights` filter keeps. -/
def searchIdxsFrom (keyword : String) (start : Nat) : List AnalysisResult → List Nat
  | [] => []
  | r :: rest =>
    if matchesKeyword keyword r then start :: searchIdxsFrom keyword (start + 1) rest
    else searchIdxsFrom keyword (start + 1) rest

/-- Match positions of `latestAnalysis.filter(...)` in `/search_insights`.
The JS code stores the matched result objects themselves; since those are
references into `latestAnalysis` and `indexOf` compares references, the
embedding records the match indices and recovers each matched result as
`latestAnalysis[i]`. -/
def searchMatchIndices (keyword : String) (batch : List AnalysisResult) : List Nat :=
  searchIdxsFrom keyword 0 batch

/-- A `userToSearchResults` entry `{ matches, idx }` (matches stored as
batch indices, see `searchMatchIndices`). -/
structure SearchState where
  matchIndices : List Nat
  idx : Nat

/-- The mutable globals of the second revision: `latestAnalysis`,
`userToInsightIndex` and `userToSearchResults` (keys are conversation
ids; cursor values are JS numbers, hence `Int`). -/
structure ServerState where
  latestAnalysis : List AnalysisResult
  userToInsightIndex : List (String × Int)
  userToSearchResults : List (String × SearchState)

/-- JS `Map.prototype.set`: update in place or append. -/
def mapSet {β : Type} (k : String) (v : β) : List (String × β) → List (String × β)
  | [] => [(k, v)]
  | (k1, v1) :: rest => if k1 = k then (k, v) :: rest else (k1, v1) :: mapSet k v rest

/-- JS `Map.prototype.delete`. -/
def mapDelete {β : Type} (k : String) (m : List (String × β)) : List (String × β) :=
  m.filter fun e => e.1 != k

/-- Response of `POST /api/mcp/ingest`: HTTP 400 on input-schema failure,
HTTP 500 on output-schema failure, HTTP 200 otherwise. -/
inductive IngestResponse where
  | badRequest
  | ok
  | serverError
deriving DecidableEq

/-- The `POST /api/mcp/ingest` handler (second revision): validate the body;
on success run the analysis handler, overwrite `latestAnalysis`, clear both
session maps, and only then validate the output, answering 500 (with the
state already mutated) when that validation fails. -/
def ingest (isUrl : String → Bool) (parseJson : String → Option Json)
    (provider : FeedbackItem → ProviderResponse)
    (st : ServerState) (body : Json) : ServerState × IngestResponse :=
  match parseIngestInput isUrl body with
  | none => (st, .badRequest)
  | some items =>
    let results := analyzeFeedback parseJson provider items
    let st1 : ServerState :=
      { latestAnalysis := results, userToInsightIndex := [], userToSearchResults := [] }
    if outputValid isUrl results then (st1, .ok) else (st1, .serverError)

/-- Observable reply of one inbound Teams message (the card/message
rendering itself is projection and not modelled beyond which branch fired
and which result index was displayed). -/
inductive BotAction where
  | helpText
  | noResults
  | showedCard (index : Int)
  | missingKeyword
  | noMatches
  | noActiveSearch
  | noMoreSearchResults
  | noCurrentSelection
  | missingQuestion
  | askedModel (analysis : AnalysisPayload) (question : String)
  | noMoreInsights
  | echo (text : String)

/-- True exactly for the reply that reaches the language model.  In the
message handler of the second revision, `ChatPrompt` is constructed only inside
the `/ask_about_current` branch. -/
def BotAction.invokesModel : BotAction → Bool
  | .askedModel _ _ => true
  | _ => false

/-- The `/latest_insight` branch. -/
def latestInsight (st : ServerState) (userKey : String) : ServerState × BotAction :=
  if st.latestAnalysis.isEmpty then (st, .noResults)
  else
    let idx : Int := (st.latestAnalysis.length : Int) - 1
    ({ st with userToInsightIndex := mapSet userKey idx st.userToInsightIndex },
     .showedCard idx)

/-- The `/search_insights` branch; `text` is the trimmed activity text. -/
def searchInsights (st : ServerState) (userKey : String) (text : String) :
    ServerState × BotAction :=
  let keyword := jsToLower (jsTrim (jsDrop text "/search_insights".length))
  if keyword = "" then (st, .missingKeyword)
  else if st.latestAnalysis.isEmpty then (st, .noResults)
  else
    match searchMatchIndices keyword st.latestAnalysis with
    | [] => (st, .noMatches)
    | i0 :: rest =>
      ({ st with
           userToSearchResults := mapSet userKey ⟨i0 :: rest, 0⟩ st.userToSearchResults,
           userToInsightIndex := mapSet userKey (i0 : Int) st.userToInsightIndex },
       .showedCard (i0 : Int))

/-- The `/next_search_result` branch. -/
def nextSearchResult (st : ServerState) (userKey : String) : ServerState × BotAction :=
  match st.userToSearchResults.lookup userKey with
  | none => (st, .noActiveSearch)
  | some search =>
    if search.matchIndices.isEmpty then (st, .noActiveSearch)
    else
      let i := search.idx + 1
      if search.matchIndices.length ≤ i then
        ({ st with userToSearchResults := mapDelete userKey st.userToSearchResults },
         .noMoreSearchResults)
      else
        let target : Int := ((search.matchIndices.get? i).getD 0 : Nat)
        ({ st with
             userToSearchResults := mapSet userKey ⟨search.matchIndices, i⟩ st.userToSearchResults,
             userToInsightIndex := mapSet userKey target st.userToInsightIndex },
         .showedCard target)

/-- `latestAnalysis[idx]` for a JS number index (`undefined` when negative
or out of range). -/
def resultAt (l : List AnalysisResult) (i : Int) : Option AnalysisResult :=
  if i < 0 then none else l.get? i.toNat

/-- The `/ask_about_current` branch; `text` is the trimmed activity text. -/
def askAboutCurrent (st : ServerState) (userKey : String) (text : String) :
    ServerState × BotAction :=
  match st.userToInsightIndex.lookup userKey with
  | none => (st, .noCurrentSelection)
  | some idx =>
    match resultAt st.latestAnalysis idx with
    | none => (st, .noCurrentSelection)
    | some r =>
      let question := jsTrim (jsDrop text "/ask_about_current".length)
      if question = "" then (st, .missingQuestion)
      else (st, .askedModel r.analysis question)

/-- The `/show_insights` branch (second revision: paging from index 0). -/
def showInsights (st : ServerState) (userKey : String) : ServerState × BotAction :=
  if st.latestAnalysis.isEmpty then (st, .noResults)
  else
    ({ st with userToInsightIndex := mapSet userKey 0 st.userToInsightIndex },
     .showedCard 0)

/-- The `/next_insight` branch: a missing cursor defaults to 0 (`?? 0`),
the incremented cursor is compared against the batch length, and on
exhaustion the cursor is reset to 0. -/
def nextInsight (st : ServerState) (userKey : String) : ServerState × BotAction :=
  if st.latestAnalysis.isEmpty then (st, .noResults)
  else
    let idx : Int := (st.userToInsightIndex.lookup userKey).getD 0
    let idx2 : Int := idx + 1
    if (st.latestAnalysis.length : Int) ≤ idx2 then
      ({ st with userToInsightIndex := mapSet userKey 0 st.userToInsightIndex },
       .noMoreInsights)
    else
      ({ st with userToInsightIndex := mapSet userKey idx2 st.userToInsightIndex },
       .showedCard idx2)

/-- The message handler of the second revision: trim the text,
lower-case it, and dispatch through the branch chain in source order; the
default branch echoes the raw text together with the command list. -/
def handleMessage (st : ServerState) (userKey : String) (rawText : String) :
    ServerState × BotAction :=
  let text := jsTrim rawText
  let lowerText := jsToLower text
  if lowerText == "/about" || lowerText == "/help" then (st, .helpText)
  else if lowerText == "/latest_insight" then latestInsight st userKey
  else if jsStartsWith lowerText "/search_insights" then searchInsights st userKey text
  else if lowerText == "/next_search_result" then nextSearchResult st userKey
  else if jsStartsWith lowerText "/ask_about_current" then askAboutCurrent st userKey text
  else if lowerText == "/show_insights" then showInsights st userKey
  else if lowerText == "/next_insight" then nextInsight st userKey
  else (st, .echo rawText)

/-- The branch conditions of `handleMessage` that precede the default
branch, combined. -/
def isDispatchCommand (lowerText : String) : Bool :=
  lowerText == "/about" || lowerText == "/help" || lowerText == "/latest_insight" ||
  jsStartsWith lowerText "/search_insights" || lowerText == "/next_search_result" ||
  jsStartsWith lowerText "/ask_about_current" || lowerText == "/show_insights" ||
  lowerText == "/next_insight"

/-- Concrete URL check that accepts everything (the fixtures below carry no
urls, so its value never matters). -/
def urlOkAlways : String → Bool := fun _ => true

/-- Concrete `JSON.parse` oracle: parsing always fails. -/
def parseNone : String → Option Json := fun _ => none

/-- A parsed provider object whose `priority` is outside the fixed enum. -/
def urgentJson : Json :=
  .obj [("painPoints", .arr []), ("summary", .str "s"), ("priority", .str "urgent")]

/-- Concrete `JSON.parse` oracle returning `urgentJson`. -/
def parseUrgent : String → Option Json := fun _ => some urgentJson

/-- A parsed provider object that conforms to `AnalysisObjectSchema`. -/
def goodJson : Json :=
  .obj [("painPoints", .arr [.str "slow api"]), ("summary", .str "API is slow"),
        ("priority", .str "high")]

/-- Concrete provider that always answers with the given content string. -/
def providerConst (s : String) : FeedbackItem → ProviderResponse := fun _ => .ok s

/-- Concrete provider returning empty (falsy) content. -/
def providerNoContent : FeedbackItem → ProviderResponse := fun _ => .ok ""

/-- Sample feedback item. -/
def itemA : FeedbackItem := ⟨1, "feedback text a", "Stack Overflow", none⟩

/-- Second sample feedback item. -/
def itemB : FeedbackItem := ⟨2, "feedback text b", "GitHub Issues", none⟩

/-- A stored result with a schema-conforming success analysis. -/
def resultSuccessHigh : AnalysisResult := ⟨1, "Stack Overflow", none, .parsed goodJson⟩

/-- A stored result with a parse-failure analysis. -/
def resultFailureParse : AnalysisResult :=
  ⟨2, "GitHub Issues", none, .failure "AI output not valid JSON" (some "oops")⟩

/-- Ingest body with one structurally valid feedback item. -/
def bodySingle : Json :=
  .obj [("feedback",
    .arr [.obj [("id", .num 1), ("text", .str "t"), ("source", .str "s")]])]

/-- Ingest body whose single item has an empty `text`. -/
def bodyEmptyText : Json :=
  .obj [("feedback",
    .arr [.obj [("id", .num 7), ("text", .str ""), ("source", .str "Stack Overflow")]])]

/-- Ingest body whose single item has a non-number `id`. -/
def bodyBadId : Json :=
  .obj [("feedback",
    .arr [.obj [("id", .str "one"), ("text", .str "t"), ("source", .str "s")]])]

/-- Ingest body with an empty (but valid) feedback array. -/
def bodyEmptyBatch : Json := .obj [("feedback", .arr [])]

/-- Empty server state. -/
def st0 : ServerState := ⟨[], [], []⟩

/-- Server state with a published batch and one active session. -/
def stBusy : ServerState := ⟨[resultFailureParse], [("u", 0)], [("u", ⟨[0], 0⟩)]⟩

/-- Server state with two published results and no session entries. -/
def stTwo : ServerState := ⟨[resultSuccessHigh, resultFailureParse], [], []⟩

/-- Server state whose session sits on the last result and on the last
search match. -/
def stLast : ServerState := ⟨[resultSuccessHigh], [("u", 0)], [("u", ⟨[0], 0⟩)]⟩

theorem lookup_mapSet_self {β : Type} (k : String) (v : β) (m : List (String × β)) :
    (mapSet k v m).lookup k = some v := by
  induction m with
  | nil => simp [mapSet, List.lookup]
  | cons p rest ih =>
    obtain ⟨k1, v1⟩ := p
    by_cases h : k1 = k
    · simp [mapSet, h, List.lookup]
    · simp only [mapSet, if_neg h, List.lookup]
      have : (k == k1) = false := by simp [Ne.symm h]
      simp [this, ih]

theorem lookup_mapDelete_self {β : Type} (k : String) (m : List (String × β)) :
    (mapDelete k m).lookup k = none := by
  induction m with
  | nil => simp [mapDelete]
  | cons p rest ih =>
    obtain ⟨k1, v1⟩ := p
    by_cases h : k1 = k
    · simpa [mapDelete, h] using ih
    · have hne : (k1 != k) = true := by simp [h]
      have hke : (k == k1) = false := by simp [Ne.symm h]
      simp only [mapDelete, List.filter_cons, hne, if_pos trivial, List.lookup, hke]
      simpa [mapDelete] using ih

theorem searchIdxsFrom_ge (keyword : String) :
    ∀ (l : List AnalysisResult) (start i : Nat),
      i ∈ searchIdxsFrom keyword start l → start ≤ i
  | [], _, _, h => by simp [searchIdxsFrom] at h
  | r :: rest, start, i, h => by
    simp only [searchIdxsFrom] at h
    split at h
    · rcases List.mem_cons.mp h with rfl | h2
      · exact Nat.le_refl i
      · exact Nat.le_trans (Nat.le_succ start) (searchIdxsFrom_ge keyword rest (start + 1) i h2)
    · exact Nat.le_trans (Nat.le_succ start) (searchIdxsFrom_ge keyword rest (start + 1) i h)

theorem searchIdxsFrom_spec (keyword : String) :
    ∀ (l : List AnalysisResult) (start i : Nat),
      i ∈ searchIdxsFrom keyword start l →
      ∃ r, l[i - start]? = some r ∧ matchesKeyword keyword r = true
  | [], _, _, h => by simp [searchIdxsFrom] at h
  | r :: rest, start, i, h => by
    simp only [searchIdxsFrom] at h
    have tail : i ∈ searchIdxsFrom keyword (start + 1) rest →
        ∃ x, (r :: rest)[i - start]? = some x ∧ matchesKeyword keyword x = true := by
      intro h2
      have hge := searchIdxsFrom_ge keyword rest (start + 1) i h2
      obtain ⟨x, hx, hm⟩ := searchIdxsFrom_spec keyword rest (start + 1) i h2
      refine ⟨x, ?_, hm⟩
      have : i - start = (i - (start + 1)) + 1 := by omega
      rw [this, List.getElem?_cons_succ]
      exact hx
    split at h
    · rcases List.mem_cons.mp h with rfl | h2
      · exact ⟨r, by simp, by assumption⟩
      · exact tail h2
    · exact tail h

theorem matchesKeyword_not_error (keyword : String) (r : AnalysisResult)
    (h : matchesKeyword keyword r = true) : r.analysis.hasErrorKey = false := by
  rcases r with ⟨i, s, u, a⟩
  cases a with
  | failure e ro => simp [matchesKeyword] at h
  | parsed j =>
    simp only [matchesKeyword] at h
    simp only [AnalysisPayload.hasErrorKey]
    cases he : (j.lookupField "error").isSome with
    | true => rw [he] at h; simp at h
    | false => rfl

theorem validateFeedbackList_none_of_mem (isUrl : String → Bool) :
    ∀ (items : List Json) (j : Json), j ∈ items →
      validateFeedbackItem isUrl j = none → validateFeedbackList isUrl items = none
  | [], _, hj, _ => by simp at hj
  | x :: rest, j, hj, hv => by
    rcases List.mem_cons.mp hj with rfl | h2
    · simp [validateFeedbackList, hv]
    · have h3 := validateFeedbackList_none_of_mem isUrl rest j h2 hv
      cases hx : validateFeedbackItem isUrl x <;> simp [validateFeedbackList, hx, h3]

theorem analyzeItem_originalId (parseJson : String → Option Json)
    (provider : FeedbackItem → ProviderResponse) (item : FeedbackItem) :
    (analyzeItem parseJson provider item).originalId = item.id := by
  simp only [analyzeItem]
  cases provider item with
  | thrown m => rfl
  | ok c =>
    by_cases hc : c = ""
    · simp [hc]
    · simp only [if_neg hc]
      cases parseJson (stripFences c) <;> rfl

/-- C1: for every batch, the analysis handler produces exactly one result
per feedback item, in the same order: the result list has the same length
as the item list, and the result at every index carries the id of the item
at that index. -/
theorem analysis_preserves_length_and_ids (parseJson : String → Option Json)
    (provider : FeedbackItem → ProviderResponse) (items : List FeedbackItem) :
    (analyzeFeedback parseJson provider items).length = items.length ∧
    ∀ i : Nat, i < items.length →
      (analyzeFeedback parseJson provider items)[i]?.map AnalysisResult.originalId
        = items[i]?.map FeedbackItem.id := by
  constructor
  · simp [analyzeFeedback]
  · intro i hi
    rw [analyzeFeedback, List.getElem?_map]
    cases h : items[i]? with
    | none => rfl
    | some it => simp [analyzeItem_originalId]

/-- Witness for C1 at a concrete two-item batch. -/
theorem analysis_preserves_length_and_ids_witness :
    (analyzeFeedback parseNone providerNoContent [itemA, itemB]).length
        = [itemA, itemB].length ∧
    (analyzeFeedback parseNone providerNoContent [itemA, itemB])[1]?.map
        AnalysisResult.originalId
      = [itemA, itemB][1]?.map FeedbackItem.id :=
  ⟨(analysis_preserves_length_and_ids parseNone providerNoContent [itemA, itemB]).1,
   (analysis_preserves_length_and_ids parseNone providerNoContent [itemA, itemB]).2
     1 (by decide)⟩

/-- C2: every ingest request that passes input validation (a successful
ingestion of a new batch) leaves both session maps empty — every existing
session cursor and search context is cleared, whatever the prior history
stored in them. -/
theorem ingest_clears_all_sessions (isUrl : String → Bool)
    (parseJson : String → Option Json) (provider : FeedbackItem → ProviderResponse)
    (st : ServerState) (body : Json) (items : List FeedbackItem)
    (h : parseIngestInput isUrl body = some items) :
    (ingest isUrl parseJson provider st body).1.userToInsightIndex = [] ∧
    (ingest isUrl parseJson provider st body).1.userToSearchResults = [] := by
  unfold ingest
  rw [h]
  cases hv : outputValid isUrl (analyzeFeedback parseJson provider items) <;> simp [hv]

/-- Witness for C2: a state with an active cursor and an active search is
fully cleared by a valid (empty-array) ingest. -/
theorem ingest_clears_all_sessions_witness :
    (ingest urlOkAlways parseNone providerNoContent stBusy bodyEmptyBatch).1.userToInsightIndex
        = [] ∧
    (ingest urlOkAlways parseNone providerNoContent stBusy bodyEmptyBatch).1.userToSearchResults
        = [] :=
  ingest_clears_all_sessions urlOkAlways parseNone providerNoContent stBusy
    bodyEmptyBatch [] rfl

/-- C3 counterexample: the provider returns parseable JSON whose priority is
`urgent`; the published batch then contains that object verbatim, classified
as a success (no `error` key) with priority outside the enum — no failure
outcome is recorded for the item (the endpoint merely answers 500). -/
theorem success_priority_enum_counterexample :
    (ingest urlOkAlways parseUrgent (providerConst "x") st0 bodySingle).1.latestAnalysis
      = [⟨1, "s", none, .parsed urgentJson⟩] ∧
    (AnalysisPayload.parsed urgentJson).hasErrorKey = false ∧
    (AnalysisPayload.parsed urgentJson).priorityField = some (.str "urgent") ∧
    isPriorityEnum "urgent" = false ∧
    (ingest urlOkAlways parseUrgent (providerConst "x") st0 bodySingle).2 = .serverError :=
  ⟨rfl, rfl, rfl, rfl, rfl⟩

/-- C3 amended: only once a published batch additionally passes the
output-schema validation does every success-classified result carry a
priority from the fixed enum; a parseable provider object with any other
priority is stored verbatim (see the counterexample) rather than converted
to a failure. -/
theorem success_priority_enum_after_output_validation (isUrl : String → Bool)
    (rs : List AnalysisResult) (hall : outputValid isUrl rs = true)
    (r : AnalysisResult) (hr : r ∈ rs) (hs : r.analysis.hasErrorKey = false) :
    ∃ p, r.analysis.priorityField = some (.str p) ∧ isPriorityEnum p = true := by
  have hv : resultOutputValid isUrl r = true := List.all_eq_true.mp hall r hr
  rcases r with ⟨i, s, u, a⟩
  cases a with
  | failure e ro => simp [AnalysisPayload.hasErrorKey] at hs
  | parsed j =>
    simp only [resultOutputValid, Bool.and_eq_true] at hv
    have hav : analysisOutputValid (.parsed j) = true := hv.2
    simp only [analysisOutputValid] at hav
    simp only [AnalysisPayload.hasErrorKey] at hs
    simp only [AnalysisPayload.priorityField]
    cases j
    case obj fields =>
      rw [Bool.or_eq_true] at hav
      simp only [Json.lookupField] at hs
      rcases hav with hobj | herr
      · simp only [matchesAnalysisObject] at hobj
        cases hpp : fields.lookup "painPoints" with
        | none => rw [hpp] at hobj; simp at hobj
        | some pp =>
          rw [hpp] at hobj
          cases hsm : fields.lookup "summary" with
          | none => rw [hsm] at hobj; simp at hobj
          | some sv =>
            rw [hsm] at hobj
            cases sv <;> try simp at hobj
            case str ss =>
              cases hpr : fields.lookup "priority" with
              | none => rw [hpr] at hobj; simp at hobj
              | some pv =>
                rw [hpr] at hobj
                cases pv <;> try simp at hobj
                case str p =>
                  refine ⟨p, by simp [Json.lookupField, hpr], ?_⟩
                  exact hobj.2
      · simp only [matchesAnalysisError] at herr
        cases he : fields.lookup "error" with
        | none => rw [he] at herr; simp at herr
        | some ev => rw [he] at hs; simp at hs
    all_goals simp [matchesAnalysisObject, matchesAnalysisError] at hav

/-- Witness for the amended C3 at a schema-conforming published result. -/
theorem success_priority_enum_after_output_validation_witness :
    outputValid urlOkAlways [resultSuccessHigh] = true ∧
    ∃ p, resultSuccessHigh.analysis.priorityField = some (.str p) ∧
      isPriorityEnum p = true :=
  ⟨rfl, success_priority_enum_after_output_validation urlOkAlways [resultSuccessHigh]
    rfl resultSuccessHigh (List.mem_cons_self resultSuccessHigh []) rfl⟩

/-- C4: every index produced by the `/search_insights` filter points at a
result whose stored analysis is classified as a success (the `in` test finds
no `error` key); no failure-classified result ever appears in the match
list. -/
theorem search_returns_only_success_indices (keyword : String)
    (batch : List AnalysisResult) (i : Nat)
    (h : i ∈ searchMatchIndices keyword batch) :
    (batch[i]?.map fun r => r.analysis.hasErrorKey) = some false := by
  obtain ⟨r, hr, hm⟩ := searchIdxsFrom_spec keyword batch 0 i h
  rw [Nat.sub_zero] at hr
  rw [hr]
  simp [matchesKeyword_not_error keyword r hm]

/-- Witness for C4: the keyword `api` matches only the success result of a
two-element batch containing one failure. -/
theorem search_returns_only_success_indices_witness :
    (1 : Nat) ∈ searchMatchIndices "api" [resultFailureParse, resultSuccessHigh] ∧
    ([resultFailureParse, resultSuccessHigh][1]?.map fun r => r.analysis.hasErrorKey)
      = some false :=
  ⟨by decide,
   search_returns_only_success_indices "api" [resultFailureParse, resultSuccessHigh]
     1 (by decide)⟩

/-- Server state with a single published result and no session entries. -/
def stOne : ServerState := ⟨[resultSuccessHigh], [], []⟩

/-- C5: advance is asymmetric on exhaustion.  From the last viewing index of
a non-empty batch, `/next_insight` reports no-more-insights and resets the
cursor to 0; from the last search position, `/next_search_result` reports
no-more-results and deletes the search context, so the next
`/next_search_result` reports that no search is active. -/
theorem advance_exhaustion_asymmetry (st : ServerState) (userKey : String) :
    (st.latestAnalysis ≠ [] →
      st.userToInsightIndex.lookup userKey = some ((st.latestAnalysis.length : Int) - 1) →
      (nextInsight st userKey).2 = .noMoreInsights ∧
      (nextInsight st userKey).1.userToInsightIndex.lookup userKey = some 0) ∧
    (∀ s : SearchState, st.userToSearchResults.lookup userKey = some s →
      s.matchIndices ≠ [] → s.idx + 1 = s.matchIndices.length →
      (nextSearchResult st userKey).2 = .noMoreSearchResults ∧
      (nextSearchResult st userKey).1.userToSearchResults.lookup userKey = none ∧
      (nextSearchResult (nextSearchResult st userKey).1 userKey).2 = .noActiveSearch) := by
  constructor
  · intro hne hcur
    have hemp : st.latestAnalysis.isEmpty = false := by
      cases hl : st.latestAnalysis with
      | nil => exact absurd hl hne
      | cons a l => rfl
    have h11 : (st.latestAnalysis.length : Int) - 1 + 1 = (st.latestAnalysis.length : Int) := by
      omega
    refine ⟨?_, ?_⟩ <;> simp [nextInsight, hemp, hcur, h11, lookup_mapSet_self]
  · intro s hs hne hlast
    have hemp : s.matchIndices.isEmpty = false := by
      cases hl : s.matchIndices with
      | nil => exact absurd hl hne
      | cons a l => rfl
    have hcond : s.matchIndices.length ≤ s.idx + 1 := by omega
    refine ⟨?_, ?_, ?_⟩ <;>
      simp [nextSearchResult, hs, hemp, hcond, lookup_mapDelete_self]

/-- Witness for C5 at a one-result batch with cursor on the last index and a
one-match search at its last position. -/
theorem advance_exhaustion_asymmetry_witness :
    ((nextInsight stLast "u").2 = .noMoreInsights ∧
     (nextInsight stLast "u").1.userToInsightIndex.lookup "u" = some 0) ∧
    ((nextSearchResult stLast "u").2 = .noMoreSearchResults ∧
     (nextSearchResult stLast "u").1.userToSearchResults.lookup "u" = none ∧
     (nextSearchResult (nextSearchResult stLast "u").1 "u").2 = .noActiveSearch) :=
  ⟨(advance_exhaustion_asymmetry stLast "u").1 (List.cons_ne_nil _ _) rfl,
   (advance_exhaustion_asymmetry stLast "u").2 ⟨[0], 0⟩ rfl (List.cons_ne_nil _ _) rfl⟩

/-- C6 counterexample: a session with no cursor (Idle) and a non-empty
(two-result) batch does not get a missing-state report from `/next_insight`;
the handler defaults the cursor to 0, advances, and displays the result at
index 1. -/
theorem advance_requires_state_counterexample :
    handleMessage stTwo "conv1" "/next_insight"
      = ({ stTwo with userToInsightIndex := [("conv1", 1)] }, .showedCard 1) := rfl

/-- C6 amended: `/next_insight` has no Viewing-or-Searching precondition; a
missing cursor is treated as cursor 0, so with two or more results the
session advances to index 1, and with exactly one result it reports
no-more-insights and resets the cursor to 0. -/
theorem advance_without_cursor_defaults (st : ServerState) (userKey : String)
    (h : st.userToInsightIndex.lookup userKey = none) :
    (2 ≤ st.latestAnalysis.length →
      nextInsight st userKey
        = ({ st with userToInsightIndex := mapSet userKey 1 st.userToInsightIndex },
           .showedCard 1)) ∧
    (st.latestAnalysis.length = 1 →
      nextInsight st userKey
        = ({ st with userToInsightIndex := mapSet userKey 0 st.userToInsightIndex },
           .noMoreInsights)) := by
  constructor
  · intro h2
    have hemp : st.latestAnalysis.isEmpty = false := by
      cases hl : st.latestAnalysis with
      | nil => rw [hl] at h2; simp at h2
      | cons a l => rfl
    have hcond : ¬((st.latestAnalysis.length : Int) ≤ 0 + 1) := by omega
    simp [nextInsight, hemp, h, hcond]
    omega
  · intro h1
    have hemp : st.latestAnalysis.isEmpty = false := by
      cases hl : st.latestAnalysis with
      | nil => rw [hl] at h1; simp at h1
      | cons a l => rfl
    have hcond : ((st.latestAnalysis.length : Int) ≤ 0 + 1) := by omega
    simp [nextInsight, hemp, h, hcond]
    omega

/-- Witness for the amended C6 at a two-result batch and at a one-result
batch, both without a cursor. -/
theorem advance_without_cursor_defaults_witness :
    nextInsight stTwo "u"
        = ({ stTwo with userToInsightIndex := mapSet "u" 1 stTwo.userToInsightIndex },
           .showedCard 1) ∧
    nextInsight stOne "u"
        = ({ stOne with userToInsightIndex := mapSet "u" 0 stOne.userToInsightIndex },
           .noMoreInsights) :=
  ⟨(advance_without_cursor_defaults stTwo "u" rfl).1 (by decide),
   (advance_without_cursor_defaults stOne "u" rfl).2 (by decide)⟩

/-- C7 counterexample: a payload whose only item has an empty `text` — which
the claim counts as failing structural validation — is in fact accepted by
the input schema, analyzed, published over the previous batch, and answered
with 200 rather than rejected. -/
theorem empty_text_accepted_counterexample :
    parseIngestInput urlOkAlways bodyEmptyText
      = some [⟨7, "", "Stack Overflow", none⟩] ∧
    ingest urlOkAlways parseNone providerNoContent stBusy bodyEmptyText
      = (⟨[⟨7, "Stack Overflow", none, .failure "No AI content" none⟩], [], []⟩, .ok) :=
  ⟨rfl, rfl⟩

/-- C7 amended: structural validation checks that `id` is a number, `text`
is a string (emptiness is not rejected), `source` is a string and `url` is
well-formed when present; whenever any item of the payload fails that
validation the whole batch is rejected with a validation error and the
previously published batch and all session state are left unchanged. -/
theorem ingest_rejects_invalid_batches (isUrl : String → Bool)
    (parseJson : String → Option Json) (provider : FeedbackItem → ProviderResponse)
    (st : ServerState) (body : Json) :
    (parseIngestInput isUrl body = none →
      ingest isUrl parseJson provider st body = (st, .badRequest)) ∧
    (∀ fields items j, body = Json.obj fields →
      fields.lookup "feedback" = some (.arr items) →
      j ∈ items → validateFeedbackItem isUrl j = none →
      parseIngestInput isUrl body = none) := by
  constructor
  · intro h
    unfold ingest
    rw [h]
  · rintro fields items j rfl hfb hj hv
    simp only [parseIngestInput]
    rw [hfb]
    exact validateFeedbackList_none_of_mem isUrl items j hj hv

/-- Witness for the amended C7: a payload whose item has a string `id` is
rejected with a 400 and the state is untouched. -/
theorem ingest_rejects_invalid_batches_witness :
    parseIngestInput urlOkAlways bodyBadId = none ∧
    ingest urlOkAlways parseNone providerNoContent stBusy bodyBadId
      = (stBusy, .badRequest) :=
  ⟨(ingest_rejects_invalid_batches urlOkAlways parseNone providerNoContent stBusy
      bodyBadId).2
      [("feedback", .arr [.obj [("id", .str "one"), ("text", .str "t"), ("source", .str "s")]])]
      [.obj [("id", .str "one"), ("text", .str "t"), ("source", .str "s")]]
      (.obj [("id", .str "one"), ("text", .str "t"), ("source", .str "s")])
      rfl rfl (List.mem_cons_self _ _) rfl,
   (ingest_rejects_invalid_batches urlOkAlways parseNone providerNoContent stBusy
      bodyBadId).1 rfl⟩

/-- C8: for non-empty provider content, the handler strips a leading
literal fenced-json marker and a trailing fence marker when present, trims
whitespace, and parses the remainder; on parse failure the outcome is the
failure object with error text for invalid JSON and `rawOutput` equal to
the original, unstripped content string. -/
theorem analysis_strip_and_parse (parseJson : String → Option Json)
    (provider : FeedbackItem → ProviderResponse) (item : FeedbackItem)
    (content : String) (hok : provider item = .ok content) (hne : content ≠ "") :
    analyzeItem parseJson provider item =
      { originalId := item.id, originalSource := item.source, originalUrl := item.url,
        analysis :=
          match parseJson (jsTrim
              (let s1 := if jsStartsWith content "```json"
                         then jsDrop content "```json".length else content
               if jsEndsWith s1 "```" then jsDropRight s1 3 else s1)) with
          | some value => .parsed value
          | none => .failure "AI output not valid JSON" (some content) } := by
  have hsame : parseJson (jsTrim
      (let s1 := if jsStartsWith content "```json"
                 then jsDrop content "```json".length else content
       if jsEndsWith s1 "```" then jsDropRight s1 3 else s1))
      = parseJson (stripFences content) := rfl
  rw [hsame]
  unfold analyzeItem
  rw [hok]
  cases hp : parseJson (stripFences content) <;> simp [hne, hp]

/-- Witness for C8: a fenced, unparseable content string yields the
invalid-JSON failure carrying the original content. -/
theorem analysis_strip_and_parse_witness :
    analyzeItem parseNone (providerConst "```json not json```") itemA =
      { originalId := itemA.id, originalSource := itemA.source,
        originalUrl := itemA.url,
        analysis := .failure "AI output not valid JSON" (some "```json not json```") } := by
  rw [analysis_strip_and_parse parseNone (providerConst "```json not json```") itemA
      "```json not json```" rfl (by decide)]
  rfl

/-- C9 counterexample: in the second revision of the message handler, a
message that matches no command token is answered by the echo branch, not
routed to the language model (no reply of this handler other than the
`/ask_about_current` answer constructs a `ChatPrompt`), even though the
navigation state is indeed left untouched. -/
theorem default_branch_echo_counterexample :
    handleMessage stBusy "u" "Tell me about the feedback"
      = (stBusy, .echo "Tell me about the feedback") ∧
    (handleMessage stBusy "u" "Tell me about the feedback").2.invokesModel = false :=
  ⟨rfl, rfl⟩

/-- C9 amended: a message matching none of the recognized command tokens is
answered with a static echo of the text plus the command list — the second
revision does not route it to the language model (the first revision did) —
and the whole server state, in particular both session maps, is unchanged. -/
theorem unrecognized_text_echoes (st : ServerState) (userKey rawText : String)
    (h : isDispatchCommand (jsToLower (jsTrim rawText)) = false) :
    handleMessage st userKey rawText = (st, .echo rawText) := by
  unfold handleMessage
  simp only [isDispatchCommand, Bool.or_eq_false_iff] at h
  obtain ⟨⟨⟨⟨⟨⟨⟨h1, h2⟩, h3⟩, h4⟩, h5⟩, h6⟩, h7⟩, h8⟩ := h
  simp [h1, h2, h3, h4, h5, h6, h7, h8]

/-- Witness for the amended C9 on a plain free-text message. -/
theorem unrecognized_text_echoes_witness :
    isDispatchCommand (jsToLower (jsTrim " hello bot ")) = false ∧
    handleMessage stTwo "u" " hello bot " = (stTwo, .echo " hello bot ") :=
  ⟨rfl, unrecognized_text_echoes stTwo "u" " hello bot " rfl⟩

/-- C10: when the input validates but the analysis output fails the output
schema, the endpoint answers 500 while the new results are nonetheless
published as the latest batch and every session cursor and search context
has been cleared — the error response does not mean the shared state was
left unchanged. -/
theorem ingest_publishes_despite_output_failure (isUrl : String → Bool)
    (parseJson : String → Option Json) (provider : FeedbackItem → ProviderResponse)
    (st : ServerState) (body : Json) (items : List FeedbackItem)
    (h1 : parseIngestInput isUrl body = some items)
    (h2 : outputValid isUrl (analyzeFeedback parseJson provider items) = false) :
    ingest isUrl parseJson provider st body
      = ({ latestAnalysis := analyzeFeedback parseJson provider items,
           userToInsightIndex := [], userToSearchResults := [] }, .serverError) := by
  unfold ingest
  rw [h1]
  simp [h2]

/-- Witness for C10: a batch whose parsed analysis has an out-of-enum
priority is published over a busy state and answered with 500. -/
theorem ingest_publishes_despite_output_failure_witness :
    ingest urlOkAlways parseUrgent (providerConst "x") stBusy bodySingle
      = ({ latestAnalysis := analyzeFeedback parseUrgent (providerConst "x")
             [⟨1, "t", "s", none⟩],
           userToInsightIndex := [], userToSearchResults := [] }, .serverError) :=
  ingest_publishes_despite_output_failure urlOkAlways parseUrgent (providerConst "x")
    stBusy bodySingle [⟨1, "t", "s", none⟩] rfl rfl

end CommunityInsights
